import Mathlib

/-!
Verification of the selection engine of `ArtworkTable.tsx`.

The component keeps selection state in five React state variables:
`selectionMode` (`'manual' | 'custom'`), `customSelectTarget` (a number),
`selectedRowIds` and `deselectedRowIds` (sets of record ids), plus the
display state `artworks`, `totalRecords`, `currentPage`, `loading`.
We embed the state and every selection-engine operation as pure Lean
functions.  Record ids are naturals; JS numbers that can be negative
(the bulk target, page numbers, parsed user input) are integers.
React's `setX` calls inside a handler do not change the values the
handler's closure reads, so each handler is a function of the state of
the render in which it fired; the embeddings take that state as input
and return the next state.
-/

inductive SelectionMode where
  | manual : SelectionMode
  | custom : SelectionMode
deriving DecidableEq, Repr

/-- `ROWS_PER_PAGE = 12` in the source. -/
def ROWS_PER_PAGE : Int := 12

/-- The selection-engine state: `selectionMode`, `customSelectTarget`,
`selectedRowIds` (the Include Set) and `deselectedRowIds` (the Exclude Set). -/
structure SelState where
  selectionMode : SelectionMode
  customSelectTarget : Int
  selectedRowIds : Finset Nat
  deselectedRowIds : Finset Nat
deriving DecidableEq

/-- The initial state: mode `manual`, target `0`, both sets empty. -/
def initialState : SelState :=
  { selectionMode := SelectionMode.manual
    customSelectTarget := 0
    selectedRowIds := ∅
    deselectedRowIds := ∅ }

/-- `isArtworkSelected` from the source: explicit deselection wins, then
explicit selection, then (in custom mode with a positive target) the
global-position test `(currentPage - 1) * ROWS_PER_PAGE + indexOnPage + 1 ≤ target`. -/
def isArtworkSelected (s : SelState) (currentPage : Int) (id : Nat)
    (indexOnPage : Nat) : Bool :=
  if id ∈ s.deselectedRowIds then false
  else if id ∈ s.selectedRowIds then true
  else if s.selectionMode = SelectionMode.custom ∧ 0 < s.customSelectTarget then
    decide ((currentPage - 1) * ROWS_PER_PAGE + (indexOnPage : Int) + 1 ≤ s.customSelectTarget)
  else false

/-- `getTotalSelectedCount` from the source.  In custom mode with a positive
target, `deselectedInRange` is the raw size of `deselectedRowIds` (the filter
in the source returns `true` for every element). -/
def getTotalSelectedCount (s : SelState) (totalRecords : Int) : Int :=
  if s.selectionMode = SelectionMode.custom ∧ 0 < s.customSelectTarget then
    let deselectedInRange : Int := s.deselectedRowIds.card
    max 0 (min s.customSelectTarget totalRecords - deselectedInRange)
  else
    s.selectedRowIds.card

/-- One iteration of the `forEach` in `onSelectionChange`: `row` is
`(index, artwork.id)`, `acc` is `(newSelectedIds, newDeselectedIds)`.
`wasSelected` reads the render state `s`, not the accumulator. -/
def applyRowChange (s : SelState) (currentPage : Int) (newSelection : List Nat)
    (acc : Finset Nat × Finset Nat) (row : Nat × Nat) : Finset Nat × Finset Nat :=
  let isNowSelected := newSelection.contains row.2
  let wasSelected := isArtworkSelected s currentPage row.2 row.1
  if isNowSelected && !wasSelected then
    (insert row.2 acc.1, Finset.erase acc.2 row.2)
  else if !isNowSelected && wasSelected then
    (Finset.erase acc.1 row.2, insert row.2 acc.2)
  else acc

/-- `onSelectionChange` from the source: switch to manual mode, reset the
target, and reconcile every row of the current page against the newly
checked subset `newSelection`. -/
def onSelectionChange (s : SelState) (currentPage : Int) (artworks : List Nat)
    (newSelection : List Nat) : SelState :=
  let sets := artworks.enum.foldl (applyRowChange s currentPage newSelection)
      (s.selectedRowIds, s.deselectedRowIds)
  { selectionMode := SelectionMode.manual
    customSelectTarget := 0
    selectedRowIds := sets.1
    deselectedRowIds := sets.2 }

/-- `onSelectAllChange` from the source: switch to manual mode, reset the
target, and move every row of the current page into the Include Set
(checked) or the Exclude Set (unchecked). -/
def onSelectAllChange (s : SelState) (artworks : List Nat) (checked : Bool) :
    SelState :=
  let sets :=
    if checked then
      artworks.foldl (fun acc id => (insert id acc.1, Finset.erase acc.2 id))
        (s.selectedRowIds, s.deselectedRowIds)
    else
      artworks.foldl (fun acc id => (Finset.erase acc.1 id, insert id acc.2))
        (s.selectedRowIds, s.deselectedRowIds)
  { selectionMode := SelectionMode.manual
    customSelectTarget := 0
    selectedRowIds := sets.1
    deselectedRowIds := sets.2 }

/-- `handleCustomSelection` from the source.  `parsedCount` is the result of
`parseInt(customSelectCount)`: `none` for `NaN` (non-numeric input), `some c`
for an integer.  The source rejects falsy/non-positive/`NaN` counts and
counts above `totalRecords`, leaving the state unchanged; on success it
clears both sets and enters custom mode with the new target. -/
def handleCustomSelection (parsedCount : Option Int) (totalRecords : Int)
    (s : SelState) : SelState :=
  match parsedCount with
  | none => s
  | some count =>
    if count ≤ 0 then s
    else if totalRecords < count then s
    else
      { selectionMode := SelectionMode.custom
        customSelectTarget := count
        selectedRowIds := ∅
        deselectedRowIds := ∅ }

/-- The display-level state around the engine: the fetched page, the loading
flag, the total record count, the current page and the selection state. -/
structure DisplayState where
  artworks : List Nat
  loading : Bool
  totalRecords : Int
  currentPage : Int
  selection : SelState
deriving DecidableEq

/-- Net effect of `fetchArtworks` once the awaited fetch settles:
on success the page records and total are stored; on failure the `catch`
only logs, so apart from `loading` (cleared in `finally`) nothing changes. -/
def fetchArtworks (fetchResult : Option (List Nat × Int)) (d : DisplayState) :
    DisplayState :=
  match fetchResult with
  | some (data, total) =>
      { d with artworks := data, totalRecords := total, loading := false }
  | none => { d with loading := false }

/-- States reachable from the initial state by the three user operations. -/
inductive Reachable : SelState → Prop where
  | init : Reachable initialState
  | manualToggle (s : SelState) (currentPage : Int) (artworks newSelection : List Nat) :
      Reachable s → Reachable (onSelectionChange s currentPage artworks newSelection)
  | selectAllToggle (s : SelState) (artworks : List Nat) (checked : Bool) :
      Reachable s → Reachable (onSelectAllChange s artworks checked)
  | bulkSubmit (s : SelState) (parsedCount : Option Int) (totalRecords : Int) :
      Reachable s → Reachable (handleCustomSelection parsedCount totalRecords s)

/-- The bulk state of Scenario A: custom mode, target 15, both sets empty. -/
def bulkState15 : SelState :=
  { selectionMode := SelectionMode.custom
    customSelectTarget := 15
    selectedRowIds := ∅
    deselectedRowIds := ∅ }

/-- C1 counterexample -- in Scenario A (page size 12, bulk target 15) the
row at index 2 of page 2 has global position (2-1)*12+2+1 = 15 ≤ 15, so it
IS selected, contradicting the claim that on page 2 exactly the rows at
indices 0 and 1 are selected. -/
theorem isArtworkSelected_page2_index2 :
    isArtworkSelected bulkState15 2 100 2 = true ∧ ¬ (2 : Nat) ∈ ({0, 1} : Finset Nat) := by
  decide

/-- C1 (amended) -- `isArtworkSelected` decides membership in the fixed order
(Exclude wins, then Include, then the bulk position test, else false), and in
Scenario A (page size 12, bulk target 15) every index on page 1 is selected
while on page 2 exactly indices 0, 1 and 2 (global positions 13, 14, 15) are. -/
theorem isArtworkSelected_spec :
    (∀ (s : SelState) (page : Int) (id idx : Nat),
      isArtworkSelected s page id idx = true ↔
        (id ∉ s.deselectedRowIds ∧
          (id ∈ s.selectedRowIds ∨
            (s.selectionMode = SelectionMode.custom ∧ 0 < s.customSelectTarget ∧
              (page - 1) * 12 + (idx : Int) + 1 ≤ s.customSelectTarget)))) ∧
    (∀ id : Nat,
      ((List.range 12).map fun idx => isArtworkSelected bulkState15 1 id idx) =
        List.replicate 12 true) ∧
    (∀ id : Nat,
      ((List.range 12).map fun idx => isArtworkSelected bulkState15 2 id idx) =
        [true, true, true, false, false, false, false, false, false, false, false, false]) := by
  refine ⟨fun s page id idx => ?_, fun id => ?_, fun id => ?_⟩
  · unfold isArtworkSelected ROWS_PER_PAGE
    by_cases hd : id ∈ s.deselectedRowIds <;>
      by_cases hs : id ∈ s.selectedRowIds <;>
        by_cases hc : s.selectionMode = SelectionMode.custom ∧ 0 < s.customSelectTarget <;>
          simp [hd, hs, hc] <;> tauto
  · simp [isArtworkSelected, bulkState15, ROWS_PER_PAGE, List.range_succ]
  · simp [isArtworkSelected, bulkState15, ROWS_PER_PAGE, List.range_succ]

/-- `handleCustomSelection` on an actual integer, with the match reduced. -/
lemma handleCustomSelection_some (n total : Int) (s : SelState) :
    handleCustomSelection (some n) total s =
      if n ≤ 0 then s
      else if total < n then s
      else
        { selectionMode := SelectionMode.custom
          customSelectTarget := n
          selectedRowIds := ∅
          deselectedRowIds := ∅ } := rfl

/-- C4 -- a successful bulk submission with `0 < n ≤ total` empties both
sets and enters custom mode with target `n`. -/
theorem handleCustomSelection_success (s : SelState) (n total : Int)
    (h1 : 0 < n) (h2 : n ≤ total) :
    handleCustomSelection (some n) total s =
      { selectionMode := SelectionMode.custom
        customSelectTarget := n
        selectedRowIds := ∅
        deselectedRowIds := ∅ } := by
  rw [handleCustomSelection_some, if_neg (by omega), if_neg (by omega)]

/-- Witness for C4: submitting 5 with total 10 from a dirty manual state. -/
theorem handleCustomSelection_success_witness :
    handleCustomSelection (some 5) 10
        { selectionMode := SelectionMode.manual, customSelectTarget := 0,
          selectedRowIds := {1, 2}, deselectedRowIds := {3} } =
      { selectionMode := SelectionMode.custom, customSelectTarget := 5,
        selectedRowIds := ∅, deselectedRowIds := ∅ } :=
  handleCustomSelection_success _ 5 10 (by decide) (by decide)

/-- C3 -- `handleCustomSelection` rejects non-numeric input (`none`),
non-positive counts, and counts above the total, leaving the state
exactly as it was. -/
theorem handleCustomSelection_reject (s : SelState) (parsed : Option Int)
    (total : Int) (h : ∀ n : Int, parsed = some n → n ≤ 0 ∨ total < n) :
    handleCustomSelection parsed total s = s := by
  match parsed with
  | none => rfl
  | some n =>
    rw [handleCustomSelection_some]
    rcases h n rfl with hle | hgt
    · rw [if_pos hle]
    · by_cases hle2 : n ≤ 0
      · rw [if_pos hle2]
      · rw [if_neg hle2, if_pos hgt]

/-- Witness for C3: rejection of `NaN`, `0`, a negative count and an
over-large count, each leaving the initial state untouched. -/
theorem handleCustomSelection_reject_witness :
    handleCustomSelection none 50 initialState = initialState ∧
    handleCustomSelection (some 0) 50 initialState = initialState ∧
    handleCustomSelection (some (-3)) 50 initialState = initialState ∧
    handleCustomSelection (some 51) 50 initialState = initialState :=
  ⟨handleCustomSelection_reject _ none 50 (fun n h => nomatch h),
   handleCustomSelection_reject _ (some 0) 50
     (fun n h => Or.inl (by cases h; decide)),
   handleCustomSelection_reject _ (some (-3)) 50
     (fun n h => Or.inl (by cases h; decide)),
   handleCustomSelection_reject _ (some 51) 50
     (fun n h => Or.inr (by cases h; decide))⟩

/-- C5 -- both manual actions force `selectionMode = manual` and reset
`customSelectTarget` to 0, whatever the prior state. -/
theorem manual_actions_force_manual_mode (s : SelState) (page : Int)
    (artworks newSelection : List Nat) (checked : Bool) :
    (onSelectionChange s page artworks newSelection).selectionMode = SelectionMode.manual ∧
    (onSelectionChange s page artworks newSelection).customSelectTarget = 0 ∧
    (onSelectAllChange s artworks checked).selectionMode = SelectionMode.manual ∧
    (onSelectAllChange s artworks checked).customSelectTarget = 0 :=
  ⟨rfl, rfl, rfl, rfl⟩

/-- A custom-mode state with target 0 and a nonempty Include Set.  The code
never reaches it, but it separates `getTotalSelectedCount`'s actual else
branch from the claimed one. -/
def c2State : SelState :=
  { selectionMode := SelectionMode.custom
    customSelectTarget := 0
    selectedRowIds := {1}
    deselectedRowIds := ∅ }

/-- C2 counterexample -- in custom mode with target 0 the claim demands 0,
but the code's else branch returns `|Include Set|`, here 1. -/
theorem getTotalSelectedCount_else_not_zero :
    c2State.selectionMode = SelectionMode.custom ∧
    ¬ 0 < c2State.customSelectTarget ∧
    getTotalSelectedCount c2State 50 ≠ 0 := by decide

/-- C2 (amended) -- `getTotalSelectedCount` returns `|Include Set|` in manual
mode, `max 0 (min target total - |Exclude Set|)` in custom mode with a
positive target (subtracting the raw Exclude-Set size), and `|Include Set|`
(not 0) in custom mode with a non-positive target. -/
theorem getTotalSelectedCount_spec (s : SelState) (total : Int) :
    (s.selectionMode = SelectionMode.manual →
      getTotalSelectedCount s total = s.selectedRowIds.card) ∧
    (s.selectionMode = SelectionMode.custom → 0 < s.customSelectTarget →
      getTotalSelectedCount s total =
        max 0 (min s.customSelectTarget total - s.deselectedRowIds.card)) ∧
    (s.selectionMode = SelectionMode.custom → s.customSelectTarget ≤ 0 →
      getTotalSelectedCount s total = s.selectedRowIds.card) := by
  unfold getTotalSelectedCount
  refine ⟨fun hm => ?_, fun hc ht => ?_, fun hc ht => ?_⟩
  · rw [if_neg]
    rintro ⟨h1, _⟩
    rw [hm] at h1
    exact SelectionMode.noConfusion h1
  · rw [if_pos ⟨hc, ht⟩]
  · rw [if_neg]
    rintro ⟨_, h2⟩
    omega

/-- Witness for C2: Scenario D (manual, Include = {3,7,9}), Scenario C
(custom, target 20, total 20, one exclusion) and the else branch. -/
theorem getTotalSelectedCount_spec_witness :
    getTotalSelectedCount
        { selectionMode := SelectionMode.manual, customSelectTarget := 0,
          selectedRowIds := {3, 7, 9}, deselectedRowIds := ∅ } 100 = 3 ∧
    getTotalSelectedCount
        { selectionMode := SelectionMode.custom, customSelectTarget := 20,
          selectedRowIds := ∅, deselectedRowIds := {5} } 20 = 19 ∧
    getTotalSelectedCount c2State 50 = 1 := by
  refine ⟨?_, ?_, ?_⟩
  · rw [(getTotalSelectedCount_spec _ 100).1 rfl]
    decide
  · rw [(getTotalSelectedCount_spec _ 20).2.1 rfl (by decide)]
    decide
  · rw [(getTotalSelectedCount_spec _ 50).2.2 rfl (by decide)]
    decide

/-- A display state showing page 2's records when a fetch fails. -/
def c9Display : DisplayState :=
  { artworks := [5]
    loading := true
    totalRecords := 50
    currentPage := 2
    selection := initialState }

/-- C9 counterexample -- after a failed fetch the previously displayed
records remain in place: the page is not treated as empty. -/
theorem fetchArtworks_failure_keeps_rows :
    (fetchArtworks none c9Display).artworks = [5] ∧ ([5] : List Nat) ≠ [] := by
  decide

/-- C9 (amended) -- a failed fetch is absorbed where it occurs: only the
loading flag is cleared, while the selection state, the displayed records,
the total and the page are all left unchanged (so the display is empty only
if it already was, as on first load). -/
theorem fetchArtworks_failure_state (d : DisplayState) :
    (fetchArtworks none d).selection = d.selection ∧
    (fetchArtworks none d).artworks = d.artworks ∧
    (fetchArtworks none d).totalRecords = d.totalRecords ∧
    (fetchArtworks none d).currentPage = d.currentPage ∧
    (fetchArtworks none d).loading = false :=
  ⟨rfl, rfl, rfl, rfl, rfl⟩

/-- Folding preserves any invariant each step preserves. -/
lemma foldl_preserve {α β : Type} (f : β → α → β) (P : β → Prop)
    (hf : ∀ b a, P b → P (f b a)) : ∀ (l : List α) (b : β), P b → P (l.foldl f b)
  | [], _, hb => hb
  | a :: l, b, hb => foldl_preserve f P hf l (f b a) (hf b a hb)

lemma disjoint_insert_erase {A B : Finset Nat} {x : Nat} (h : Disjoint A B) :
    Disjoint (insert x A) (B.erase x) :=
  Finset.disjoint_insert_left.mpr
    ⟨Finset.not_mem_erase _ _, h.mono_right (Finset.erase_subset _ _)⟩

lemma disjoint_erase_insert {A B : Finset Nat} {x : Nat} (h : Disjoint A B) :
    Disjoint (A.erase x) (insert x B) :=
  (disjoint_insert_erase h.symm).symm

/-- Each reconciliation step keeps the two sets disjoint. -/
lemma applyRowChange_disjoint (s : SelState) (p : Int) (ns : List Nat)
    (acc : Finset Nat × Finset Nat) (row : Nat × Nat)
    (h : Disjoint acc.1 acc.2) :
    Disjoint (applyRowChange s p ns acc row).1 (applyRowChange s p ns acc row).2 := by
  simp only [applyRowChange]
  split
  · exact disjoint_insert_erase h
  · split
    · exact disjoint_erase_insert h
    · exact h

/-- The Include and Exclude sets stay disjoint along every reachable state. -/
lemma reachable_disjoint {s : SelState} (h : Reachable s) :
    Disjoint s.selectedRowIds s.deselectedRowIds := by
  induction h with
  | init => simp [initialState]
  | manualToggle s p a ns _ ih =>
      exact foldl_preserve _ (fun acc => Disjoint acc.1 acc.2)
        (fun acc row hacc => applyRowChange_disjoint s p ns acc row hacc) a.enum
        (s.selectedRowIds, s.deselectedRowIds) ih
  | selectAllToggle s a c _ ih =>
      unfold onSelectAllChange
      split
      · exact foldl_preserve
          (fun acc id => (insert id acc.1, Finset.erase acc.2 id))
          (fun acc => Disjoint acc.1 acc.2)
          (fun acc id hacc => disjoint_insert_erase hacc) a
          (s.selectedRowIds, s.deselectedRowIds) ih
      · exact foldl_preserve
          (fun acc id => (Finset.erase acc.1 id, insert id acc.2))
          (fun acc => Disjoint acc.1 acc.2)
          (fun acc id hacc => disjoint_erase_insert hacc) a
          (s.selectedRowIds, s.deselectedRowIds) ih
  | bulkSubmit s pc tr _ ih =>
      cases pc with
      | none => exact ih
      | some n =>
        rw [handleCustomSelection_some]
        split
        · exact ih
        · split
          · exact ih
          · simp

/-- C6 -- after any sequence of the three operations starting from the
initial state, no id is in both the Include Set and the Exclude Set. -/
theorem include_exclude_disjoint (s : SelState) (h : Reachable s) (id : Nat) :
    ¬ (id ∈ s.selectedRowIds ∧ id ∈ s.deselectedRowIds) :=
  fun hmem => (Finset.disjoint_left.mp (reachable_disjoint h) hmem.1) hmem.2

/-- Witness for C6: the state after selecting all of page `[1, 2]`. -/
theorem include_exclude_disjoint_witness :
    ¬ ((1 : Nat) ∈ (onSelectAllChange initialState [1, 2] true).selectedRowIds ∧
       (1 : Nat) ∈ (onSelectAllChange initialState [1, 2] true).deselectedRowIds) :=
  include_exclude_disjoint _ (Reachable.selectAllToggle _ _ _ Reachable.init) 1

/-- Mode discipline of reachable states: custom mode has a positive target
and empty sets, manual mode has target 0. -/
lemma reachable_mode_inv {s : SelState} (h : Reachable s) :
    (s.selectionMode = SelectionMode.custom →
      0 < s.customSelectTarget ∧ s.selectedRowIds = ∅ ∧ s.deselectedRowIds = ∅) ∧
    (s.selectionMode = SelectionMode.manual → s.customSelectTarget = 0) := by
  induction h with
  | init => exact ⟨fun hc => SelectionMode.noConfusion hc, fun _ => rfl⟩
  | manualToggle s p a ns _ ih =>
      exact ⟨fun hc => SelectionMode.noConfusion hc, fun _ => rfl⟩
  | selectAllToggle s a c _ ih =>
      exact ⟨fun hc => SelectionMode.noConfusion hc, fun _ => rfl⟩
  | bulkSubmit s pc tr _ ih =>
      cases pc with
      | none => exact ih
      | some n =>
        rw [handleCustomSelection_some]
        split
        · exact ih
        · split
          · exact ih
          · refine ⟨fun _ => ⟨?_, rfl, rfl⟩, fun hm => SelectionMode.noConfusion hm⟩
            show (0 : Int) < n
            omega

/-- C10 -- in every reachable custom-mode state the target is positive and
both sets are empty (so `isArtworkSelected` is decided by the position test
alone, its Exclude and Include branches being unreachable), and in every
reachable manual-mode state the target is 0. -/
theorem bulk_mode_invariant (s : SelState) (h : Reachable s) :
    (s.selectionMode = SelectionMode.custom →
      0 < s.customSelectTarget ∧ s.selectedRowIds = ∅ ∧ s.deselectedRowIds = ∅ ∧
      ∀ (page : Int) (id idx : Nat),
        isArtworkSelected s page id idx =
          decide ((page - 1) * ROWS_PER_PAGE + (idx : Int) + 1 ≤ s.customSelectTarget)) ∧
    (s.selectionMode = SelectionMode.manual → s.customSelectTarget = 0) := by
  refine ⟨fun hc => ?_, (reachable_mode_inv h).2⟩
  obtain ⟨ht, hs, hd⟩ := (reachable_mode_inv h).1 hc
  refine ⟨ht, hs, hd, fun page id idx => ?_⟩
  unfold isArtworkSelected
  rw [hs, hd]
  simp [hc, ht]

/-- Witness for C10: the state after submitting a bulk count of 7 out of 20. -/
theorem bulk_mode_invariant_witness :
    0 < (handleCustomSelection (some 7) 20 initialState).customSelectTarget ∧
    (handleCustomSelection (some 7) 20 initialState).selectedRowIds = ∅ ∧
    (handleCustomSelection (some 7) 20 initialState).deselectedRowIds = ∅ :=
  have h := bulk_mode_invariant (handleCustomSelection (some 7) 20 initialState)
    (Reachable.bulkSubmit initialState (some 7) 20 Reachable.init)
  ⟨(h.1 rfl).1, (h.1 rfl).2.1, (h.1 rfl).2.2.1⟩

/-- A reconciliation step on a row with a different id leaves the membership
of `x` in both sets alone. -/
lemma applyRowChange_mem_of_ne (s : SelState) (p : Int) (ns : List Nat)
    (acc : Finset Nat × Finset Nat) (row : Nat × Nat) (x : Nat)
    (hne : row.2 ≠ x) :
    (x ∈ (applyRowChange s p ns acc row).1 ↔ x ∈ acc.1) ∧
    (x ∈ (applyRowChange s p ns acc row).2 ↔ x ∈ acc.2) := by
  simp only [applyRowChange]
  split
  · simp [Finset.mem_insert, Finset.mem_erase, Ne.symm hne]
  · split
    · simp [Finset.mem_insert, Finset.mem_erase, Ne.symm hne]
    · exact ⟨Iff.rfl, Iff.rfl⟩

/-- A reconciliation step on a row whose presence in the new selection equals
its previous `isArtworkSelected` status is the identity. -/
lemma applyRowChange_id (s : SelState) (p : Int) (ns : List Nat)
    (acc : Finset Nat × Finset Nat) (row : Nat × Nat)
    (h : ns.contains row.2 = isArtworkSelected s p row.2 row.1) :
    applyRowChange s p ns acc row = acc := by
  simp only [applyRowChange, h]
  cases hb : isArtworkSelected s p row.2 row.1 <;> simp [hb]

/-- A fold of identity steps is the identity. -/
lemma foldl_applyRowChange_id (s : SelState) (p : Int) (ns : List Nat) :
    ∀ (l : List (Nat × Nat)) (acc : Finset Nat × Finset Nat),
      (∀ row ∈ l, ns.contains row.2 = isArtworkSelected s p row.2 row.1) →
      l.foldl (applyRowChange s p ns) acc = acc
  | [], _, _ => rfl
  | row :: l, acc, h => by
    rw [List.foldl_cons, applyRowChange_id s p ns acc row (h row (List.mem_cons_self _ _))]
    exact foldl_applyRowChange_id s p ns l acc (fun r hr => h r (List.mem_cons_of_mem _ hr))

/-- Rows that are off the page or whose status is unchanged leave `x`'s
membership in both sets untouched through the whole fold. -/
lemma foldl_mem_preserve (s : SelState) (p : Int) (ns : List Nat) (x : Nat) :
    ∀ (l : List (Nat × Nat)) (acc : Finset Nat × Finset Nat),
      (∀ row ∈ l, row.2 ≠ x ∨ ns.contains row.2 = isArtworkSelected s p row.2 row.1) →
      (x ∈ (l.foldl (applyRowChange s p ns) acc).1 ↔ x ∈ acc.1) ∧
      (x ∈ (l.foldl (applyRowChange s p ns) acc).2 ↔ x ∈ acc.2)
  | [], _, _ => ⟨Iff.rfl, Iff.rfl⟩
  | row :: l, acc, h => by
    rw [List.foldl_cons]
    have hrest := foldl_mem_preserve s p ns x l (applyRowChange s p ns acc row)
      (fun r hr => h r (List.mem_cons_of_mem _ hr))
    rcases h row (List.mem_cons_self _ _) with hne | hid
    · have hm := applyRowChange_mem_of_ne s p ns acc row x hne
      exact ⟨hrest.1.trans hm.1, hrest.2.trans hm.2⟩
    · rw [applyRowChange_id s p ns acc row hid]
      exact foldl_mem_preserve s p ns x l acc (fun r hr => h r (List.mem_cons_of_mem _ hr))

/-- When every row except `(j, x)` keeps its status, the whole fold collapses
to the single step on `(j, x)`. -/
lemma foldl_eq_single (s : SelState) (p : Int) (ns : List Nat) (x j : Nat) :
    ∀ (l : List (Nat × Nat)) (acc : Finset Nat × Finset Nat),
      (l.map Prod.snd).Nodup → (j, x) ∈ l →
      (∀ row ∈ l, row.2 ≠ x → ns.contains row.2 = isArtworkSelected s p row.2 row.1) →
      l.foldl (applyRowChange s p ns) acc = applyRowChange s p ns acc (j, x)
  | [], _, _, hmem, _ => absurd hmem (List.not_mem_nil _)
  | row :: l, acc, hnd, hmem, h => by
    rw [List.map_cons, List.nodup_cons] at hnd
    rw [List.foldl_cons]
    by_cases hrx : row.2 = x
    · have hrow : row = (j, x) := by
        rcases List.mem_cons.mp hmem with h1 | h1
        · exact h1.symm
        · exact absurd (List.mem_map.mpr ⟨(j, x), h1, rfl⟩) (hrx ▸ hnd.1)
      subst hrow
      refine foldl_applyRowChange_id s p ns l _ (fun r hr => ?_)
      refine h r (List.mem_cons_of_mem _ hr) (fun hx => ?_)
      exact hnd.1 (hx ▸ List.mem_map.mpr ⟨r, hr, rfl⟩)
    · rw [applyRowChange_id s p ns acc row
        (h row (List.mem_cons_self _ _) hrx)]
      have hmem' : (j, x) ∈ l := by
        rcases List.mem_cons.mp hmem with h1 | h1
        · exact absurd (congrArg Prod.snd h1.symm) hrx
        · exact h1
      exact foldl_eq_single s p ns x j l acc hnd.2 hmem'
        (fun r hr => h r (List.mem_cons_of_mem _ hr))

/-- C8 -- `onSelectionChange` leaves the membership of `x` in both sets
exactly as it was, whenever every page row either is not `x` (in particular
when `x` is not on the page at all) or has unchanged selected status. -/
theorem onSelectionChange_frame (s : SelState) (page : Int)
    (artworks newSelection : List Nat) (x : Nat)
    (h : ∀ row ∈ artworks.enum, row.2 ≠ x ∨
      newSelection.contains row.2 = isArtworkSelected s page row.2 row.1) :
    (x ∈ (onSelectionChange s page artworks newSelection).selectedRowIds ↔
      x ∈ s.selectedRowIds) ∧
    (x ∈ (onSelectionChange s page artworks newSelection).deselectedRowIds ↔
      x ∈ s.deselectedRowIds) :=
  foldl_mem_preserve s page newSelection x artworks.enum
    (s.selectedRowIds, s.deselectedRowIds) h

/-- Witness for C8: the off-page id 7 and the unchanged on-page id 1 both
keep their membership when page `[1, 2, 3]` is reconciled against `[1, 3]`. -/
theorem onSelectionChange_frame_witness :
    ((7 : Nat) ∈ (onSelectionChange
        { selectionMode := SelectionMode.manual, customSelectTarget := 0,
          selectedRowIds := {1}, deselectedRowIds := {2} } 1 [1, 2, 3]
        [1, 3]).selectedRowIds ↔ (7 : Nat) ∈ ({1} : Finset Nat)) ∧
    ((7 : Nat) ∈ (onSelectionChange
        { selectionMode := SelectionMode.manual, customSelectTarget := 0,
          selectedRowIds := {1}, deselectedRowIds := {2} } 1 [1, 2, 3]
        [1, 3]).deselectedRowIds ↔ (7 : Nat) ∈ ({2} : Finset Nat)) :=
  onSelectionChange_frame
    { selectionMode := SelectionMode.manual, customSelectTarget := 0,
      selectedRowIds := {1}, deselectedRowIds := {2} } 1 [1, 2, 3] [1, 3] 7
    (by decide)

/-- A step that turns a row on: moved into the Include Set, out of the
Exclude Set. -/
lemma applyRowChange_toggle_on (s : SelState) (p : Int) (ns : List Nat)
    (acc : Finset Nat × Finset Nat) (x j : Nat)
    (hnow : ns.contains x = true) (hwas : isArtworkSelected s p x j = false) :
    applyRowChange s p ns acc (j, x) = (insert x acc.1, Finset.erase acc.2 x) := by
  show (if (ns.contains x && !isArtworkSelected s p x j) = true then
          (insert x acc.1, Finset.erase acc.2 x)
        else if (!(ns.contains x) && isArtworkSelected s p x j) = true then
          (Finset.erase acc.1 x, insert x acc.2)
        else acc) = (insert x acc.1, Finset.erase acc.2 x)
  rw [hnow, hwas]
  rfl

/-- A step that turns a row off: moved into the Exclude Set, out of the
Include Set. -/
lemma applyRowChange_toggle_off (s : SelState) (p : Int) (ns : List Nat)
    (acc : Finset Nat × Finset Nat) (x j : Nat)
    (hnow : ns.contains x = false) (hwas : isArtworkSelected s p x j = true) :
    applyRowChange s p ns acc (j, x) = (Finset.erase acc.1 x, insert x acc.2) := by
  show (if (ns.contains x && !isArtworkSelected s p x j) = true then
          (insert x acc.1, Finset.erase acc.2 x)
        else if (!(ns.contains x) && isArtworkSelected s p x j) = true then
          (Finset.erase acc.1 x, insert x acc.2)
        else acc) = (Finset.erase acc.1 x, insert x acc.2)
  rw [hnow, hwas]
  rfl

/-- When only the row `(j, x)` changes status, `onSelectionChange` acts on
the two sets as the single reconciliation step on that row. -/
lemma onSelectionChange_eq_single (s : SelState) (page : Int)
    (artworks ns : List Nat) (x j : Nat) (hnodup : artworks.Nodup)
    (hmem : (j, x) ∈ artworks.enum)
    (hrest : ∀ row ∈ artworks.enum, row.2 ≠ x →
      ns.contains row.2 = isArtworkSelected s page row.2 row.1) :
    (onSelectionChange s page artworks ns).selectedRowIds =
      (applyRowChange s page ns (s.selectedRowIds, s.deselectedRowIds) (j, x)).1 ∧
    (onSelectionChange s page artworks ns).deselectedRowIds =
      (applyRowChange s page ns (s.selectedRowIds, s.deselectedRowIds) (j, x)).2 := by
  have hnd : (artworks.enum.map Prod.snd).Nodup := by
    rw [List.enum_map_snd]
    exact hnodup
  have h := foldl_eq_single s page ns x j artworks.enum
    (s.selectedRowIds, s.deselectedRowIds) hnd hmem hrest
  exact ⟨congrArg Prod.fst h, congrArg Prod.snd h⟩

/-- C7 -- round-trip: in manual mode, flipping the row `x` (on the page at
index `j`) to the opposite displayed status and then back, while every other
page row keeps its status, restores both sets exactly, hence `x`'s
membership in whichever of the two sets held it; iterating the pair gives no
drift after any even number of such toggles. -/
theorem manual_toggle_roundtrip (s : SelState) (page : Int)
    (artworks newSel1 newSel2 : List Nat) (x j : Nat)
    (hmode : s.selectionMode = SelectionMode.manual)
    (hnodup : artworks.Nodup)
    (hmem : (j, x) ∈ artworks.enum)
    (hdisj : Disjoint s.selectedRowIds s.deselectedRowIds)
    (hin : x ∈ s.selectedRowIds ∨ x ∈ s.deselectedRowIds)
    (h1x : newSel1.contains x = !(isArtworkSelected s page x j))
    (h1rest : ∀ row ∈ artworks.enum, row.2 ≠ x →
      newSel1.contains row.2 = isArtworkSelected s page row.2 row.1)
    (h2x : newSel2.contains x = isArtworkSelected s page x j)
    (h2rest : ∀ row ∈ artworks.enum, row.2 ≠ x →
      newSel2.contains row.2 =
        isArtworkSelected (onSelectionChange s page artworks newSel1) page row.2 row.1) :
    (onSelectionChange (onSelectionChange s page artworks newSel1) page artworks
        newSel2).selectedRowIds = s.selectedRowIds ∧
    (onSelectionChange (onSelectionChange s page artworks newSel1) page artworks
        newSel2).deselectedRowIds = s.deselectedRowIds := by
  obtain ⟨e1s, e1d⟩ := onSelectionChange_eq_single s page artworks newSel1 x j
    hnodup hmem h1rest
  obtain ⟨e2s, e2d⟩ := onSelectionChange_eq_single
    (onSelectionChange s page artworks newSel1) page artworks newSel2 x j
    hnodup hmem h2rest
  rcases hin with hsel | hdes
  · have hxd : x ∉ s.deselectedRowIds := Finset.disjoint_left.mp hdisj hsel
    have hwas : isArtworkSelected s page x j = true := by
      simp [isArtworkSelected, hxd, hsel]
    have hnow1 : newSel1.contains x = false := by
      rw [h1x, hwas]
      rfl
    rw [applyRowChange_toggle_off s page newSel1 _ x j hnow1 hwas] at e1s e1d
    have hwas2 : isArtworkSelected (onSelectionChange s page artworks newSel1)
        page x j = false := by
      simp [isArtworkSelected, e1d]
    have hnow2 : newSel2.contains x = true := by
      rw [h2x, hwas]
    rw [applyRowChange_toggle_on _ page newSel2 _ x j hnow2 hwas2] at e2s e2d
    constructor
    · rw [e2s, e1s, Finset.insert_erase hsel]
    · rw [e2d, e1d, Finset.erase_insert hxd]
  · have hxs : x ∉ s.selectedRowIds := Finset.disjoint_right.mp hdisj hdes
    have hwas : isArtworkSelected s page x j = false := by
      simp [isArtworkSelected, hdes]
    have hnow1 : newSel1.contains x = true := by
      rw [h1x, hwas]
      rfl
    rw [applyRowChange_toggle_on s page newSel1 _ x j hnow1 hwas] at e1s e1d
    have hwas2 : isArtworkSelected (onSelectionChange s page artworks newSel1)
        page x j = true := by
      simp [isArtworkSelected, e1s, e1d]
    have hnow2 : newSel2.contains x = false := by
      rw [h2x, hwas]
    rw [applyRowChange_toggle_off _ page newSel2 _ x j hnow2 hwas2] at e2s e2d
    constructor
    · rw [e2s, e1s, Finset.erase_insert hxs]
    · rw [e2d, e1d, Finset.insert_erase hdes]

/-- Witness for C7: on page `[1, 2, 3]` with Include Set `{2}`, deselecting
row 2 (new checked set `[]`) and reselecting it (new checked set `[2]`)
restores the sets. -/
theorem manual_toggle_roundtrip_witness :
    (onSelectionChange (onSelectionChange
        { selectionMode := SelectionMode.manual, customSelectTarget := 0,
          selectedRowIds := {2}, deselectedRowIds := ∅ } 1 [1, 2, 3] [])
        1 [1, 2, 3] [2]).selectedRowIds = ({2} : Finset Nat) ∧
    (onSelectionChange (onSelectionChange
        { selectionMode := SelectionMode.manual, customSelectTarget := 0,
          selectedRowIds := {2}, deselectedRowIds := ∅ } 1 [1, 2, 3] [])
        1 [1, 2, 3] [2]).deselectedRowIds = (∅ : Finset Nat) :=
  manual_toggle_roundtrip
    { selectionMode := SelectionMode.manual, customSelectTarget := 0,
      selectedRowIds := {2}, deselectedRowIds := ∅ } 1 [1, 2, 3] [] [2] 2 1
    rfl (by decide) (by decide) (by decide) (Or.inl (by decide)) (by decide)
    (by decide) (by decide) (by decide)
